import Mathlib

/-
Shallow embedding of `apollo-router/src/plugins/telemetry/tracing/datadog.rs`:
the two span mapper closures passed to the datadog pipeline builder
(`with_name_mapping`, `with_resource_mapping`), the agent-address selection
performed by `Config::apply`, and (modelled from the spec, since its source is
outside this tree) the endpoint deserialization `deser_endpoint`.
-/

namespace DatadogTracing

/-- Embedding of `opentelemetry::Value` restricted to the variants the mapper
closures distinguish: the `String` variant versus everything else (all
non-string variants flow through the same `_ =>` fallback arm, so `bool`
and `i64` stand in for the full non-string family). -/
inductive Value where
  | bool (b : Bool)
  | i64 (i : Int)
  | str (s : String)
  deriving DecidableEq, Repr

/-- Embedding of a span as the mapper closures read it: a name, and the
attribute map (`span.attributes`), modelled as an association list keyed by
attribute key. -/
structure Span where
  name : String
  attributes : List (String × Value)
  deriving DecidableEq, Repr

/-- Embedding of `span.attributes.get(&Key::from_static_str(k))`: lookup of
the first binding for `k`, `none` when the span lacks the attribute. -/
def getAttr (attrs : List (String × Value)) (k : String) : Option Value :=
  match attrs with
  | [] => none
  | (k2, v) :: rest => if k2 = k then some v else getAttr rest k

/-- Embedding of the `with_name_mapping` closure (datadog.rs lines 45-66),
branch for branch in source order, including the duplicated
`span.name == "request"` test whose arm returns `"supergraph.parse_query"`. -/
def map_name (span : Span) : String :=
  if span.name = "request" then "supergraph.request"
  else if span.name = "router" then "supergraph.router"
  else if span.name = "request" then "supergraph.parse_query"
  else if span.name = "supergraph" then "supergraph.operation"
  else if span.name = "query_planning" then "supergraph.query_planning"
  else if span.name = "execution" then "supergraph.execute"
  else if span.name = "fetch" then "supergraph.fetch"
  else if span.name = "subgraph" then "subgraph.operation"
  else if span.name = "subgraph_request" then "subgraph.service"
  else "apollo_router"

/-- Embedding of the `with_resource_mapping` closure (datadog.rs lines 67-119),
branch for branch in source order. The source calls
`span.attributes.get(..).unwrap()`, which panics when the attribute is
absent; `none` models that panic, `some r` a normal return of `r`. -/
def map_resource (span : Span) : Option String :=
  if span.name = "request" then
    match getAttr span.attributes "http.method" with
    | none => none
    | some value =>
      match value with
      | Value.str value => some value
      | _ => some span.name
  else if span.name = "router" then some span.name
  else if span.name = "request" then some span.name
  else if span.name = "supergraph" then
    match getAttr span.attributes "graphql.operation.name" with
    | none => none
    | some value =>
      match value with
      | Value.str value => some value
      | _ => some span.name
  else if span.name = "query_planning" then
    match getAttr span.attributes "graphql.operation.name" with
    | none => none
    | some value =>
      match value with
      | Value.str value => some value
      | _ => some span.name
  else if span.name = "execution" then some span.name
  else if span.name = "fetch" then some span.name
  else if span.name = "subgraph" then
    match getAttr span.attributes "graphql.operation.name" with
    | none => none
    | some value =>
      match value with
      | Value.str value => some value
      | _ => some span.name
  else if span.name = "subgraph_request" then
    match getAttr span.attributes "apollo.subgraph.name" with
    | none => none
    | some value =>
      match value with
      | Value.str value => some value
      | _ => some span.name
  else some span.name

/-- Embedding of `AgentEndpoint` (from `super`): either the default agent
address or an explicit URL, the URL modelled by its configuration string. -/
inductive AgentEndpoint where
  | agentDefault
  | url (u : String)
  deriving DecidableEq, Repr

/-- Embedding of `e.to_string().trim_end_matches('/')`: remove every trailing
`'/'` character. -/
def trim_end_slashes (s : String) : String :=
  String.mk ((s.data.reverse.dropWhile (fun c => c = '/')).reverse)

/-- Embedding of the endpoint handling in `Config::apply` (datadog.rs lines
36-43): `Default` yields no agent address; `Url(s)` yields the trimmed URL
string handed to `with_agent_endpoint`. -/
def agent_address (e : AgentEndpoint) : Option String :=
  match e with
  | AgentEndpoint.agentDefault => none
  | AgentEndpoint.url s => some (trim_end_slashes s)

/-- Helper for the spec-modelled endpoint resolver: does the character list
start with the scheme separator `"://"`. -/
def startsWithSchemeSep (cs : List Char) : Bool :=
  match cs with
  | ':' :: '/' :: '/' :: _ => true
  | _ => false

/-- Helper for the spec-modelled endpoint resolver: does the character list
contain the scheme separator `"://"` anywhere. -/
def containsSchemeSep (cs : List Char) : Bool :=
  match cs with
  | [] => false
  | c :: rest => startsWithSchemeSep (c :: rest) || containsSchemeSep rest

/-- A configuration string has a scheme when it contains `"://"`. -/
def hasScheme (s : String) : Bool :=
  containsSchemeSep s.data

/-- Modelled from the spec: `deser_endpoint` (declared in the sibling module
`super`, not in this tree; only its test `endpoint_configuration` is here).
Spec 4.1/6: the literal sentinel `"default"` resolves to the `Default`
variant; any other string is normalized with the default scheme `http://`
when no scheme is present, and resolves to the explicit-URL variant. -/
def deser_endpoint (s : String) : AgentEndpoint :=
  if s = "default" then AgentEndpoint.agentDefault
  else if hasScheme s then AgentEndpoint.url s
  else AgentEndpoint.url ("http://" ++ s)

/-- Prepending `"http://"` to any string yields a string distinct from the
sentinel `"default"`. -/
lemma http_prepend_ne_default (s : String) : ("http://" ++ s) ≠ "default" := by
  intro h
  have h2 : ('h' :: 't' :: 't' :: 'p' :: ':' :: '/' :: '/' :: s.data)
      = ('d' :: 'e' :: 'f' :: 'a' :: 'u' :: 'l' :: 't' :: []) := congrArg String.data h
  injection h2 with hc _
  exact absurd hc (by decide)

/-- The last element of a reversed list is the head of the list. -/
lemma getLast?_reverse_eq_head? (l : List Char) : l.reverse.getLast? = l.head? := by
  cases l with
  | nil => rfl
  | cons a t => rw [List.reverse_cons, List.getLast?_concat]; rfl

/-- The head of `dropWhile (· = '/') cs`, when present, is not `'/'`. -/
lemma head?_dropWhile_slash (cs : List Char) (c : Char)
    (h : (cs.dropWhile (fun x => x = '/')).head? = some c) : c ≠ '/' := by
  induction cs with
  | nil => simp [List.dropWhile] at h
  | cons a t ih =>
    by_cases ha : a = '/'
    · rw [List.dropWhile_cons, if_pos (by simp [ha])] at h
      exact ih h
    · rw [List.dropWhile_cons, if_neg (by simp [ha])] at h
      simp only [List.head?_cons, Option.some.injEq] at h
      rw [← h]
      exact ha

/-- C1: the resource-mapping closure is not total: for the span named
`"request"` with zero attributes, the source's
`span.attributes.get(..).unwrap()` unwraps `None` and panics (modelled as
`map_resource` returning `none`), so the absent-attribute branch does abort
execution, contradicting the claim that every lookup is guarded. -/
theorem map_resource_request_no_attrs_panics :
    map_resource ⟨"request", []⟩ = none := by decide

/-- C2: absence and wrong type are not treated alike by the code: a
`"supergraph"` span lacking `graphql.operation.name` makes `map_resource`
panic (`none`), while the same span carrying that attribute with the
non-string value `42` falls back to the span name `"supergraph"`; a
`"subgraph"` span with the non-string value also falls back. -/
theorem map_resource_absent_vs_wrong_type_divergence :
    map_resource ⟨"supergraph", []⟩ = none
    ∧ map_resource ⟨"supergraph", [("graphql.operation.name", Value.i64 42)]⟩
        = some "supergraph"
    ∧ map_resource ⟨"subgraph", [("graphql.operation.name", Value.i64 42)]⟩
        = some "subgraph" := by decide

/-- C3 counterexample: the name-mapping closure sends `"subgraph_request"` to
`"subgraph.service"`, not to the `"subgraph.request"` tabulated by the
claim. -/
theorem map_name_subgraph_request_counterexample :
    map_name ⟨"subgraph_request", []⟩ ≠ "subgraph.request" := by decide

/-- C3 amended: the name mapping sends request -> supergraph.request,
router -> supergraph.router, supergraph -> supergraph.operation,
query_planning -> supergraph.query_planning, execution -> supergraph.execute,
fetch -> supergraph.fetch, subgraph -> subgraph.operation,
subgraph_request -> subgraph.service, and every other span name to the
fallback `"apollo_router"`. -/
theorem map_name_table_amended :
    (∀ attrs : List (String × Value),
      map_name ⟨"request", attrs⟩ = "supergraph.request"
      ∧ map_name ⟨"router", attrs⟩ = "supergraph.router"
      ∧ map_name ⟨"supergraph", attrs⟩ = "supergraph.operation"
      ∧ map_name ⟨"query_planning", attrs⟩ = "supergraph.query_planning"
      ∧ map_name ⟨"execution", attrs⟩ = "supergraph.execute"
      ∧ map_name ⟨"fetch", attrs⟩ = "supergraph.fetch"
      ∧ map_name ⟨"subgraph", attrs⟩ = "subgraph.operation"
      ∧ map_name ⟨"subgraph_request", attrs⟩ = "subgraph.service")
    ∧ (∀ (n : String) (attrs : List (String × Value)),
        n ∉ ["request", "router", "supergraph", "query_planning", "execution",
          "fetch", "subgraph", "subgraph_request"] →
        map_name ⟨n, attrs⟩ = "apollo_router") := by
  constructor
  · intro attrs
    exact ⟨rfl, rfl, rfl, rfl, rfl, rfl, rfl, rfl⟩
  · intro n attrs h
    simp only [List.mem_cons, List.not_mem_nil, or_false, not_or] at h
    obtain ⟨h1, h2, h3, h4, h5, h6, h7, h8⟩ := h
    simp [map_name, h1, h2, h3, h4, h5, h6, h7, h8]

/-- C3 witness: the fallback branch of the amended table theorem at the
concrete unmapped name `"custom_span"`. -/
theorem map_name_table_amended_witness :
    map_name ⟨"custom_span", []⟩ = "apollo_router" :=
  map_name_table_amended.2 "custom_span" [] (by decide)

/-- C4 counterexample: for a span named `"request"` carrying
`http.route = "/graphql"`, `map_resource` does not return `"/graphql"`: the
code consults `http.method`, finds nothing, and panics (`none`). -/
theorem map_resource_request_http_route_counterexample :
    map_resource ⟨"request", [("http.route", Value.str "/graphql")]⟩
      ≠ some "/graphql" := by decide

/-- C4 amended: the attribute key consulted for `"request"` spans is
`http.method`: whenever that attribute is present with string value `v`,
`map_resource` returns `v`. -/
theorem map_resource_request_http_method_amended
    (v : String) (rest : List (String × Value)) :
    map_resource ⟨"request", ("http.method", Value.str v) :: rest⟩ = some v := by
  simp [map_resource, getAttr]

/-- C5 counterexample: for a span named `"subgraph_request"` carrying
`graphql.operation.name = "getUser"`, `map_resource` does not return
`"getUser"`: the code consults `apollo.subgraph.name`, finds nothing, and
panics (`none`). -/
theorem map_resource_subgraph_request_opname_counterexample :
    map_resource ⟨"subgraph_request",
      [("graphql.operation.name", Value.str "getUser")]⟩ ≠ some "getUser" := by
  decide

/-- C5 amended: the attribute key consulted for `"subgraph_request"` spans is
`apollo.subgraph.name`: whenever that attribute is present with string value
`v`, `map_resource` returns `v`. -/
theorem map_resource_subgraph_request_subgraph_name_amended
    (v : String) (rest : List (String × Value)) :
    map_resource ⟨"subgraph_request", ("apollo.subgraph.name", Value.str v) :: rest⟩
      = some v := by
  simp [map_resource, getAttr]

/-- C6 counterexample: the schemeless configuration string `"default"` is the
sentinel: it resolves to the `Default` variant, while `"http://" ++ "default"`
resolves to an explicit URL, so the scheme-normalization equation fails at
`s = "default"`. -/
theorem deser_endpoint_default_counterexample :
    hasScheme "default" = false
    ∧ deser_endpoint "default" ≠ deser_endpoint ("http://" ++ "default") := by
  decide

/-- C6 amended: `"default"` resolves to the `Default` variant,
`"collector:1234"` to `Explicit(http://collector:1234)`,
`"https://collector:1234"` to `Explicit(https://collector:1234)`, and every
configuration string other than the sentinel `"default"` that lacks a scheme
resolves exactly as the same string prefixed with `"http://"`. -/
theorem deser_endpoint_amended :
    deser_endpoint "default" = AgentEndpoint.agentDefault
    ∧ deser_endpoint "collector:1234" = AgentEndpoint.url "http://collector:1234"
    ∧ deser_endpoint "https://collector:1234"
        = AgentEndpoint.url "https://collector:1234"
    ∧ ∀ s : String, s ≠ "default" → hasScheme s = false →
        deser_endpoint s = deser_endpoint ("http://" ++ s) := by
  refine ⟨by decide, by decide, by decide, ?_⟩
  intro s hd hs
  have hne : ("http://" ++ s) ≠ "default" := http_prepend_ne_default s
  have hsc : hasScheme ("http://" ++ s) = true := rfl
  simp [deser_endpoint, hd, hs, hne, hsc]

/-- C6 witness: the normalization branch of the amended endpoint theorem at
the concrete schemeless string `"collector:1234"`. -/
theorem deser_endpoint_amended_witness :
    deser_endpoint "collector:1234" = deser_endpoint ("http://" ++ "collector:1234") :=
  deser_endpoint_amended.2.2.2 "collector:1234" (by decide) (by decide)

/-- C7: for every span whose name has no entry in the resource-mapping table
(no branch of the closure looks up an attribute for it), `map_resource`
returns the span's own name whatever its attributes are. -/
theorem map_resource_unmapped_fallback
    (n : String) (attrs : List (String × Value))
    (h : n ∉ ["request", "supergraph", "query_planning", "subgraph",
      "subgraph_request"]) :
    map_resource ⟨n, attrs⟩ = some n := by
  simp only [List.mem_cons, List.not_mem_nil, or_false, not_or] at h
  obtain ⟨h1, h2, h3, h4, h5⟩ := h
  simp [map_resource, h1, h2, h3, h4, h5]

/-- C7 witness: the unmapped-name fallback at the concrete span named
`"unrelated_kind"` carrying an unrelated attribute. -/
theorem map_resource_unmapped_fallback_witness :
    map_resource ⟨"unrelated_kind", [("http.method", Value.str "GET")]⟩
      = some "unrelated_kind" :=
  map_resource_unmapped_fallback "unrelated_kind"
    [("http.method", Value.str "GET")] (by decide)

/-- C8: both mapper closures are pure functions of their input: two
invocations on the same span yield the same output. -/
theorem mappers_deterministic :
    (∀ span : Span, map_name span = map_name span)
    ∧ (∀ span : Span, map_resource span = map_resource span) :=
  ⟨fun _ => rfl, fun _ => rfl⟩

/-- C9: `apply` supplies an agent address exactly when the endpoint is the
explicit-URL variant: the `Default` variant yields no address, the `Url`
variant yields the URL string with every trailing `'/'` removed, and the
supplied string never ends in `'/'`. -/
theorem agent_address_explicit_only :
    agent_address AgentEndpoint.agentDefault = none
    ∧ (∀ s : String, agent_address (AgentEndpoint.url s) = some (trim_end_slashes s))
    ∧ (∀ (s : String) (c : Char),
        (trim_end_slashes s).data.getLast? = some c → c ≠ '/') := by
  refine ⟨rfl, fun s => rfl, ?_⟩
  intro s c h
  have h2 : ((s.data.reverse.dropWhile (fun x => x = '/')).reverse).getLast? = some c := h
  rw [getLast?_reverse_eq_head?] at h2
  exact head?_dropWhile_slash _ _ h2

/-- C9 witness: the trailing-slash clause of the agent-address theorem at the
concrete URL string `"http://collector:1234/"`. -/
theorem agent_address_explicit_only_witness :
    (trim_end_slashes "http://collector:1234/").data.getLast? = some '4'
    ∧ ('4' : Char) ≠ '/' :=
  ⟨by decide, agent_address_explicit_only.2.2 "http://collector:1234/" '4' (by decide)⟩

/-- C10: the third branch of the name-mapping closure repeats the test
`span.name == "request"` already taken by the first branch, so its arm is
dead code: `map_name` never returns `"supergraph.parse_query"` on any
span. -/
theorem map_name_parse_query_unreachable (span : Span) :
    map_name span ≠ "supergraph.parse_query" := by
  unfold map_name
  repeat' split
  all_goals decide

end DatadogTracing
